import Mathlib

/-
  Shallow embedding of the linkway2 affiliate platform's core services:

  * apps/commissions/services.py  (payout batching, gateway hand-off)
  * apps/commissions/calculator.py (commission calculation)
  * apps/analytics/services.py    (fraud heuristics engine)
  * apps/affiliates/services.py   (attribution tracking)

  Conventions of the embedding:
  * Python Decimal / float money and score values are modelled as ℚ
    (the concrete literals 2.5, 0.4, ... are exact decimals, and every
    comparison the code performs is robust under this reading).
  * datetimes are modelled as integer seconds; a timedelta of d days is
    d * 86400 seconds.
  * Database tables are lists of rows (or, for tables only accessed
    through a unique key, a function from the key to Option row).
    Django's `transaction.atomic` rolls back every write of the block
    when an exception escapes it; in the embedding a function returns
    the original state next to an error in that case.
  * External collaborators (the Paystack transfer gateway) are
    parameters supplying the outcome of the single call the code makes.
-/

/-! ### Data model: commissions and payouts (apps/commissions/models.py) -/

structure Commission where
  id : Nat
  order : Nat
  marketer : Nat
  product : Nat
  gross_sale_amount : ℚ
  commission_rate : ℚ
  commission_amount : ℚ
  platform_fee_rate : ℚ
  platform_fee_amount : ℚ
  net_commission : Option ℚ
  status : String
  payout : Option Nat
  approved_at : Int
  created_at : Int
  earned_at : Option Int
  holdback_until : Option Int
  deriving DecidableEq, Repr

structure Payout where
  id : Nat
  marketer : Nat
  payout_method : String
  total_amount : ℚ
  commission_count : Nat
  bank_name : String
  account_number : String
  account_name : String
  status : String
  paystack_transfer_reference : Option String
  transfer_code : Option String
  processed_at : Option Int
  deriving DecidableEq, Repr

structure User where
  id : Nat
  role : String
  full_name : String
  bank_name : Option String
  account_number : Option String
  account_name : Option String
  created_at : Int
  deriving DecidableEq, Repr

/-- Python truthiness of an optional string: `None` and `""` are falsy. -/
def optFalsy : Option String → Bool
  | none => true
  | some s => s.isEmpty

structure PayoutState where
  commissions : List Commission
  payouts : List Payout
  nextPayoutId : Nat
  deriving DecidableEq, Repr

/-! ### Payout batcher (apps/commissions/services.py, process_payout_request) -/

def MINIMUM_PAYOUT_NGN : ℚ := 5000

/-- Outcome of the single `initiate_paystack_transfer` call: either the
    gateway's response dict or the `RuntimeError` it raises. -/
inductive GatewayResult where
  | ok (reference : String) (transfer_code : String)
  | err (msg : String)
  deriving DecidableEq, Repr

def cNet (c : Commission) : ℚ := c.net_commission.getD 0

def sumNet (l : List Commission) : ℚ := (l.map cNet).sum

/-- Sort key of `.order_by("approved_at", "created_at")`. -/
def commKey (c : Commission) : Int × Int := (c.approved_at, c.created_at)

def keyLE (a b : Int × Int) : Bool :=
  a.1 < b.1 || (a.1 == b.1 && a.2 ≤ b.2)

def insertByKey (c : Commission) : List Commission → List Commission
  | [] => [c]
  | d :: ds => if keyLE (commKey c) (commKey d) then c :: d :: ds else d :: insertByKey c ds

def sortByKey : List Commission → List Commission
  | [] => []
  | c :: cs => insertByKey c (sortByKey cs)

/-- The queryset `Commission.objects.filter(marketer=..., status="approved",
    payout__isnull=True).order_by("approved_at", "created_at")`. -/
def approvedUnclaimed (st : PayoutState) (m : User) : List Commission :=
  sortByKey (st.commissions.filter
    (fun c => c.marketer == m.id && c.status == "approved" && c.payout.isNone))

def totalAvailable (st : PayoutState) (m : User) : ℚ :=
  sumNet (approvedUnclaimed st m)

/-- `min(requested_amount, total_available)` when an amount was requested,
    else the full available total. -/
def payoutTarget (requested : Option ℚ) (total : ℚ) : ℚ :=
  match requested with
  | some r => min r total
  | none => total

/-- The greedy selection loop: walk the ordered candidates, take a
    commission while the running total stays within the target, stop at
    the first that would push past it. -/
def selectCommissions : List Commission → ℚ → ℚ → List Commission
  | [], _, _ => []
  | c :: rest, running, target =>
    if running + cNet c ≤ target then
      c :: selectCommissions rest (running + cNet c) target
    else []

/-- `process_payout_request(marketer, requested_amount)`.  The result pairs
    the new database state with either the created payout or the message of
    the `ValueError`/`RuntimeError` raised.  The gateway call happens inside
    `transaction.atomic()`, so when it raises, the payout row creation and
    the commission-claiming update are rolled back: the original state is
    returned next to the error. -/
def process_payout_request (gw : GatewayResult) (now : Int) (st : PayoutState)
    (marketer : User) (requested : Option ℚ) : PayoutState × Except String Payout :=
  if optFalsy marketer.bank_name || optFalsy marketer.account_number then
    (st, Except.error "Bank details not configured")
  else
    let candidates := approvedUnclaimed st marketer
    let total := sumNet candidates
    if total < MINIMUM_PAYOUT_NGN then
      (st, Except.error "Minimum payout is NGN 5000")
    else
      let target := payoutTarget requested total
      let toPay := selectCommissions candidates 0 target
      let running := sumNet toPay
      if running < MINIMUM_PAYOUT_NGN then
        (st, Except.error "Not enough approved commissions")
      else
        let pid := st.nextPayoutId
        let payout0 : Payout :=
          { id := pid
            marketer := marketer.id
            payout_method := "bank_transfer"
            total_amount := running
            commission_count := toPay.length
            bank_name := marketer.bank_name.getD ""
            account_number := marketer.account_number.getD ""
            account_name :=
              if optFalsy marketer.account_name then marketer.full_name
              else marketer.account_name.getD ""
            status := "processing"
            paystack_transfer_reference := none
            transfer_code := none
            processed_at := none }
        let claimed := st.commissions.map
          (fun c => if toPay.any (fun d => d.id == c.id) then { c with payout := some pid } else c)
        match gw with
        | GatewayResult.err msg => (st, Except.error msg)
        | GatewayResult.ok ref tc =>
          let payout1 := { payout0 with
            paystack_transfer_reference := some ref
            transfer_code := some tc
            status := "processing"
            processed_at := some now }
          ({ commissions := claimed
             payouts := st.payouts ++ [payout1]
             nextPayoutId := pid + 1 },
           Except.ok payout1)

/-! ### Data model: fraud heuristics engine (apps/analytics/services.py) -/

structure ClickRow where
  id : Nat
  link_id : Nat
  ip_address : String
  user_agent : String
  clicked_at : Int
  cookie_id : String
  is_suspicious : Bool
  is_bot : Bool
  fraud_score : ℚ
  deriving DecidableEq, Repr

structure OrderRow where
  id : Nat
  attribution_cookie_id : Option String
  created_at : Int
  marketer_id : Option Nat
  total_amount : ℚ
  status : String
  deriving DecidableEq, Repr

/-- The part of an AttributionTracking row the fraud engine reads. -/
structure AttributionInfo where
  cookie_id : String
  created_at : Int
  deriving DecidableEq, Repr

structure UserRow where
  id : Nat
  role : String
  account_number : Option String
  created_at : Int
  is_active : Bool
  deriving DecidableEq, Repr

structure LinkRow where
  id : Nat
  marketer : Nat
  click_count : Int
  is_active : Bool
  deriving DecidableEq, Repr

structure FraudLogRow where
  entity_type : String
  entity_id : Nat
  fraud_type : String
  fraud_score : ℚ
  indicator_signals : List String
  action_taken : String
  deriving DecidableEq, Repr

structure FraudDB where
  clicks : List ClickRow
  orders : List OrderRow
  attributions : List AttributionInfo
  users : List UserRow
  links : List LinkRow
  logs : List FraudLogRow
  deriving DecidableEq, Repr

structure FraudResult where
  fraud_score : ℚ
  signals : List String
  action : String
  deriving DecidableEq, Repr

/-- Does the pattern occur as a contiguous substring of the character list? -/
def containsSub : List Char → List Char → Bool
  | [], patt => patt.isEmpty
  | c :: rest, patt => patt.isPrefixOf (c :: rest) || containsSub rest patt

def botPatterns : List String :=
  ["bot", "crawler", "spider", "scraper", "curl", "wget", "python-requests", "java", "scrapy"]

/-- `is_bot_user_agent(user_agent)`. -/
def is_bot_user_agent (user_agent : String) : Bool :=
  if user_agent.isEmpty then false
  else botPatterns.any (fun p => containsSub user_agent.toLower.data p.data)

/-- The heuristics of the `entity_type == "click"` branch, as a list of
    (signal, points) pairs in the order the code appends them. -/
def clickHeuristics (db : FraudDB) (now : Int) (ck : ClickRow) : List (String × ℚ) :=
  (if (db.clicks.filter (fun k =>
        k.ip_address == ck.ip_address && k.link_id == ck.link_id &&
        now - 300 < k.clicked_at)).length > 5 then
    [("Click spam from same IP", (0.4 : ℚ))] else []) ++
  (if (db.clicks.filter (fun k =>
        k.ip_address == ck.ip_address && now - 60 < k.clicked_at)).length > 10 then
    [("Impossible click velocity", (0.3 : ℚ))] else []) ++
  (if is_bot_user_agent ck.user_agent then
    [("Bot user agent detected", (0.5 : ℚ))] else [])

/-- `.order_by("clicked_at").first()`: the earliest click of a list,
    earlier list position winning ties. -/
def earliestClick : List ClickRow → Option ClickRow
  | [] => none
  | c :: rest =>
    match earliestClick rest with
    | none => some c
    | some d => if c.clicked_at ≤ d.clicked_at then some c else some d

/-- The heuristics of the `entity_type == "order"` branch. -/
def orderHeuristics (db : FraudDB) (now : Int) (o : OrderRow) : List (String × ℚ) :=
  match o.attribution_cookie_id.bind
      (fun ckid => db.attributions.find? (fun a => a.cookie_id == ckid)) with
  | none => [("No attribution record found", (0.6 : ℚ))]
  | some attr =>
    (if o.created_at - attr.created_at < 10 then
      [("Suspiciously fast conversion", (0.5 : ℚ))] else []) ++
    (match (earliestClick (db.clicks.filter
        (fun k => some k.cookie_id == o.attribution_cookie_id))).map (fun k => k.ip_address) with
     | none => []
     | some click_ip =>
       if (db.orders.filter (fun o2 =>
            o2.created_at > now - 86400 &&
            (match o2.attribution_cookie_id with
             | some ck2 => db.clicks.any (fun k => k.ip_address == click_ip && k.cookie_id == ck2)
             | none => false))).length > 3 then
         [("Multiple orders from same IP", (0.4 : ℚ))] else []) ++
    (match o.marketer_id with
     | none => []
     | some mid =>
       match db.users.find? (fun u => u.id == mid) with
       | none => []
       | some marketer =>
         if (now - marketer.created_at) / 86400 < 7 && o.total_amount > 100000 then
           [("High-value order by new marketer", (0.3 : ℚ))] else [])

/-- `AffiliateLink.objects.filter(marketer=...).aggregate(Sum("click_count"))`,
    `None` coalesced to 0. -/
def totalClicks (db : FraudDB) (m : UserRow) : Int :=
  ((db.links.filter (fun l => l.marketer == m.id)).map (fun l => l.click_count)).sum

def totalConversions (db : FraudDB) (m : UserRow) : Nat :=
  (db.orders.filter (fun o => o.marketer_id == some m.id)).length

/-- The heuristics of the `entity_type == "marketer"` branch.  (The
    `registration_ip` block of the source computes a value and then
    `pass`es: it contributes nothing and is omitted.) -/
def marketerHeuristics (db : FraudDB) (_now : Int) (m : UserRow) : List (String × ℚ) :=
  (if !optFalsy m.account_number &&
      db.users.any (fun u => u.account_number == m.account_number && u.id != m.id) then
    [("Bank account used by multiple marketers", (0.7 : ℚ))] else []) ++
  (if totalClicks db m > 0 &&
      ((totalConversions db m : ℚ) / (totalClicks db m : ℚ) > 0.20) then
    [("Abnormally high conversion rate", (0.6 : ℚ))] else [])

/-- The signal/points pairs a `detect_fraud` invocation accumulates:
    `none` exactly when the entity lookup raised `DoesNotExist` and the
    code took the early zero-score return. An unknown entity type matches
    no branch and falls through with an empty accumulation. -/
def triggered (db : FraudDB) (now : Int) (entity_type : String) (entity_id : Nat) :
    Option (List (String × ℚ)) :=
  if entity_type == "click" then
    (db.clicks.find? (fun k => k.id == entity_id)).map (clickHeuristics db now)
  else if entity_type == "order" then
    (db.orders.find? (fun o => o.id == entity_id)).map (orderHeuristics db now)
  else if entity_type == "marketer" then
    (db.users.find? (fun u => u.id == entity_id && u.role == "marketer")).map
      (marketerHeuristics db now)
  else some []

/-- The action thresholds applied to the clamped score. -/
def actionFor (score : ℚ) : String :=
  if score < 0.3 then "none" else if score < 0.7 then "flagged" else "blocked"

/-- `detect_fraud(entity_type, entity_id)`: returns the result dict next to
    the updated database (click-flag persistence, the FraudDetectionLog row,
    and the blocking side effects). -/
def detect_fraud (db : FraudDB) (now : Int) (entity_type : String) (entity_id : Nat) :
    FraudResult × FraudDB :=
  match triggered db now entity_type entity_id with
  | none => ({ fraud_score := 0, signals := [], action := "none" }, db)
  | some hs =>
    let signals := hs.map Prod.fst
    let raw := (hs.map Prod.snd).sum
    let db1 :=
      if entity_type == "click" && raw > 0 then
        { db with clicks := db.clicks.map (fun k =>
            if k.id == entity_id then
              { k with is_suspicious := 0.3 ≤ raw
                       is_bot := is_bot_user_agent k.user_agent
                       fraud_score := min raw 1 }
            else k) }
      else db
    let score := min raw 1
    let action := actionFor score
    let logRow : FraudLogRow :=
      { entity_type := entity_type
        entity_id := entity_id
        fraud_type := if signals.isEmpty then "none" else String.intercalate ", " signals
        fraud_score := score
        indicator_signals := signals
        action_taken := action }
    let db2 := { db1 with logs := db1.logs ++ [logRow] }
    let db3 :=
      if action == "blocked" then
        if entity_type == "marketer" then
          { db2 with
            users := db2.users.map (fun u =>
              if u.id == entity_id then { u with is_active := false } else u)
            links := db2.links.map (fun l =>
              if l.marketer == entity_id then { l with is_active := false } else l) }
        else if entity_type == "order" then
          { db2 with orders := db2.orders.map (fun o =>
              if o.id == entity_id then { o with status := "cancelled" } else o) }
        else db2
      else db2
    ({ fraud_score := score, signals := signals, action := action }, db3)

/-! ### Attribution tracker (apps/affiliates/services.py,
     create_or_update_attribution) -/

structure Touch where
  link_id : Nat
  timestamp : Int
  weight : ℚ
  deriving DecidableEq, Repr

structure AttributionTracking where
  cookie_id : String
  session_id : Option String
  first_click_link : Option Nat
  last_click_link : Option Nat
  attribution_model : String
  click_chain : List Touch
  created_at : Int
  expires_at : Int
  converted : Bool
  converted_at : Option Int
  order : Option Nat
  deriving DecidableEq, Repr

/-- The AttributionTracking table, accessed only through its unique
    `cookie_id` key. -/
def AttrState : Type := String → Option AttributionTracking

def thirtyDays : Int := 30 * 86400

/-- `create_or_update_attribution(cookie_id, affiliate_link, session_id)`:
    `get_or_create` on the cookie, then on an existing record append a
    touch to the chain, overwrite `last_click_link` and re-extend
    `expires_at` — unconditionally, whether or not the record has
    converted. -/
def create_or_update_attribution (st : AttrState) (now : Int) (cookie_id : String)
    (link_id : Nat) (session_id : Option String) : AttrState × AttributionTracking :=
  match st cookie_id with
  | none =>
    let r : AttributionTracking :=
      { cookie_id := cookie_id
        session_id := session_id
        first_click_link := some link_id
        last_click_link := some link_id
        attribution_model := "last_click"
        click_chain := [{ link_id := link_id, timestamp := now, weight := 1 }]
        created_at := now
        expires_at := now + thirtyDays
        converted := false
        converted_at := none
        order := none }
    (Function.update st cookie_id (some r), r)
  | some a =>
    let r := { a with
      last_click_link := some link_id
      click_chain := a.click_chain ++ [{ link_id := link_id, timestamp := now, weight := 1 }]
      expires_at := now + thirtyDays }
    (Function.update st cookie_id (some r), r)

/-- One click event reaching the redirect view for a cookie. -/
structure ClickEv where
  time : Int
  cookie : String
  link : Nat
  session : Option String
  deriving DecidableEq, Repr

def touchOf (e : ClickEv) : Touch :=
  { link_id := e.link, timestamp := e.time, weight := 1 }

def applyClick (st : AttrState) (e : ClickEv) : AttrState :=
  (create_or_update_attribution st e.time e.cookie e.link e.session).1

def applyClicks (st : AttrState) (es : List ClickEv) : AttrState :=
  es.foldl applyClick st

/-! ### Commission calculator (apps/commissions/calculator.py) -/

structure ProductInfo where
  id : Nat
  commission_type : String
  commission_rate : ℚ
  fixed_commission_amount : ℚ
  deriving DecidableEq, Repr

structure OrderInfo where
  id : Nat
  status : String
  marketer : Option Nat
  product : ProductInfo
  subtotal : ℚ
  quantity : Nat
  delivered_at : Option Int
  deriving DecidableEq, Repr

/-- The counters of an AffiliateLink row the calculator updates. -/
structure LinkCounters where
  conversion_count : Int
  total_revenue : ℚ
  total_commission : ℚ
  deriving DecidableEq, Repr

/-- The calculator's view of the database: the commission table and the
    AffiliateLink counters, the latter keyed by the unique
    (marketer, product) pair. -/
structure CalcState where
  commissions : List Commission
  links : Nat × Nat → Option LinkCounters
  nextCommissionId : Nat

def platform_fee_rate : ℚ := 2.5

/-- `calculate_commission(order)`: `None` unless the order is delivered
    with a marketer; the existing commission if one exists for the order;
    otherwise compute amounts, create the row and bump the affiliate
    link's counters. -/
def calculate_commission (st : CalcState) (now : Int) (o : OrderInfo) :
    CalcState × Option Commission :=
  if o.status != "delivered" || o.marketer.isNone then (st, none)
  else
    match o.marketer with
    | none => (st, none)
    | some mid =>
      match st.commissions.find? (fun c => c.order == o.id) with
      | some existing => (st, some existing)
      | none =>
        let gross_commission :=
          if o.product.commission_type == "percentage" then
            (o.subtotal * o.product.commission_rate) / 100
          else
            o.product.fixed_commission_amount * (o.quantity : ℚ)
        let platform_fee_amount := (gross_commission * platform_fee_rate) / 100
        let net_commission := gross_commission - platform_fee_amount
        let delivered := o.delivered_at.getD now
        let holdback_until := delivered + 14 * 86400
        let c : Commission :=
          { id := st.nextCommissionId
            order := o.id
            marketer := mid
            product := o.product.id
            gross_sale_amount := o.subtotal
            commission_rate := o.product.commission_rate
            commission_amount := gross_commission
            platform_fee_rate := platform_fee_rate
            platform_fee_amount := platform_fee_amount
            net_commission := some net_commission
            status := "earned"
            payout := none
            approved_at := 0
            created_at := now
            earned_at := some now
            holdback_until := some holdback_until }
        let links' :=
          match st.links (mid, o.product.id) with
          | none => st.links
          | some lc =>
            Function.update st.links (mid, o.product.id)
              (some { conversion_count := lc.conversion_count + 1
                      total_revenue := lc.total_revenue + o.subtotal
                      total_commission := lc.total_commission + gross_commission })
        ({ commissions := st.commissions ++ [c]
           links := links'
           nextCommissionId := st.nextCommissionId + 1 },
         some c)

/-! ### Concrete fixtures -/

def gwOk : GatewayResult := GatewayResult.ok "linkway-payout-0" "TRF_001"

def marketerC1 : User :=
  { id := 1, role := "marketer", full_name := "Ada Obi",
    bank_name := some "GTBank", account_number := some "0123456789",
    account_name := some "Ada Obi", created_at := 0 }

def commissionC1 : Commission :=
  { id := 10, order := 100, marketer := 1, product := 5,
    gross_sale_amount := 80000, commission_rate := 10,
    commission_amount := 6154, platform_fee_rate := 2.5,
    platform_fee_amount := 154, net_commission := some 6000,
    status := "approved", payout := none, approved_at := 1, created_at := 1,
    earned_at := some 0, holdback_until := some 0 }

def stC1 : PayoutState :=
  { commissions := [commissionC1], payouts := [], nextPayoutId := 0 }

/-- C1 (code divergence): in `process_payout_request` the gateway call is
    made inside `transaction.atomic()`, so a gateway error rolls the whole
    block back.  On a marketer with valid bank details and ₦6000 of
    approved unclaimed commission, a failing transfer leaves the database
    exactly as it was: no payout row exists (in particular none marked
    failed) and the commission is not tagged to any payout — contradicting
    the spec's "failure after claiming still results in a payout row marked
    failed ... never a rollback of the commission claim". -/
theorem payout_gateway_failure_rolls_back_claims :
    process_payout_request (GatewayResult.err "Paystack transfer error: gateway down")
        50 stC1 marketerC1 none
      = (stC1, Except.error "Paystack transfer error: gateway down")
    ∧ stC1.payouts = []
    ∧ stC1.commissions.map Commission.payout = [none] := by
  refine ⟨?_, rfl, rfl⟩
  norm_num +decide [process_payout_request, approvedUnclaimed, sortByKey, insertByKey,
    keyLE, commKey, sumNet, cNet, payoutTarget, selectCommissions, MINIMUM_PAYOUT_NGN,
    stC1, marketerC1, commissionC1, optFalsy, min_def]

/-- C9: `process_payout_request` rejects a marketer with missing bank
    details, and rejects when the available approved-unclaimed total is
    below the ₦5,000 minimum; in both cases the returned state is exactly
    the input state — no payout row is created and no commission is
    claimed. -/
theorem payout_request_failures_commit_nothing :
    ∀ (gw : GatewayResult) (now : Int) (st : PayoutState) (m : User) (req : Option ℚ),
      ((optFalsy m.bank_name || optFalsy m.account_number) = true →
        process_payout_request gw now st m req = (st, Except.error "Bank details not configured"))
      ∧ ((optFalsy m.bank_name || optFalsy m.account_number) = false →
          totalAvailable st m < MINIMUM_PAYOUT_NGN →
          process_payout_request gw now st m req = (st, Except.error "Minimum payout is NGN 5000")) := by
  intro gw now st m req
  constructor
  · intro h
    simp only [process_payout_request, h, if_true]
  · intro h hlt
    simp only [totalAvailable] at hlt
    simp only [process_payout_request, h, Bool.false_eq_true, if_false, hlt, if_true]

def marketerNoBank : User :=
  { id := 2, role := "marketer", full_name := "Bisi Ade",
    bank_name := none, account_number := some "0123456789",
    account_name := none, created_at := 0 }

def commissionSmall : Commission :=
  { id := 11, order := 101, marketer := 1, product := 5,
    gross_sale_amount := 10000, commission_rate := 10,
    commission_amount := 1000, platform_fee_rate := 25,
    platform_fee_amount := 25, net_commission := some 975,
    status := "approved", payout := none, approved_at := 2, created_at := 2,
    earned_at := some 0, holdback_until := some 0 }

def stSmall : PayoutState :=
  { commissions := [commissionSmall], payouts := [], nextPayoutId := 0 }

theorem payout_request_failures_commit_nothing_witness :
    process_payout_request gwOk 0 stSmall marketerNoBank none
        = (stSmall, Except.error "Bank details not configured")
    ∧ process_payout_request gwOk 0 stSmall marketerC1 none
        = (stSmall, Except.error "Minimum payout is NGN 5000") := by
  constructor
  · exact (payout_request_failures_commit_nothing gwOk 0 stSmall marketerNoBank none).1 (by decide)
  · refine (payout_request_failures_commit_nothing gwOk 0 stSmall marketerC1 none).2 (by decide) ?_
    norm_num +decide [totalAvailable, approvedUnclaimed, sortByKey, insertByKey, keyLE,
      commKey, sumNet, cNet, MINIMUM_PAYOUT_NGN, stSmall, marketerC1, commissionSmall]

/-! ### Greedy selection lemmas -/

theorem sumNet_nil : sumNet [] = 0 := rfl

theorem sumNet_cons (c : Commission) (l : List Commission) :
    sumNet (c :: l) = cNet c + sumNet l := by
  simp [sumNet]

theorem sumNet_nonneg (l : List Commission) (h : ∀ c ∈ l, 0 ≤ cNet c) :
    0 ≤ sumNet l := by
  induction l with
  | nil => simp [sumNet]
  | cons c cs ih =>
    rw [sumNet_cons]
    exact add_nonneg (h c (List.mem_cons_self c cs))
      (ih fun d hd => h d (List.mem_cons_of_mem c hd))

theorem selectCommissions_isTake (l : List Commission) :
    ∀ (r t : ℚ), selectCommissions l r t = l.take (selectCommissions l r t).length := by
  induction l with
  | nil => intro r t; rfl
  | cons c cs ih =>
    intro r t
    simp only [selectCommissions]
    by_cases h : r + cNet c ≤ t
    · rw [if_pos h]
      simp only [List.length_cons, List.take_succ_cons]
      exact congrArg (List.cons c) (ih (r + cNet c) t)
    · rw [if_neg h]
      rfl

theorem selectCommissions_longest (l : List Commission) :
    ∀ (r t : ℚ), (∀ c ∈ l, 0 ≤ cNet c) → r ≤ t →
      ∀ n, n ≤ l.length →
        (r + sumNet (l.take n) ≤ t ↔ n ≤ (selectCommissions l r t).length) := by
  induction l with
  | nil =>
    intro r t _ hr n hn
    have hn0 : n = 0 := Nat.le_zero.mp hn
    subst hn0
    simpa [sumNet, selectCommissions] using hr
  | cons c cs ih =>
    intro r t hnn hr n hn
    cases n with
    | zero =>
      simp only [List.take_zero, sumNet_nil, add_zero]
      exact iff_of_true hr (Nat.zero_le _)
    | succ m =>
      simp only [List.take_succ_cons, sumNet_cons, selectCommissions]
      by_cases h : r + cNet c ≤ t
      · rw [if_pos h]
        have hm : m ≤ cs.length := Nat.succ_le_succ_iff.mp (by simpa using hn)
        have := ih (r + cNet c) t (fun d hd => hnn d (List.mem_cons_of_mem c hd)) h m hm
        simp only [List.length_cons, Nat.succ_le_succ_iff]
        rw [← add_assoc]
        exact this
      · rw [if_neg h]
        apply iff_of_false
        · intro hle
          apply h
          have hS : 0 ≤ sumNet (cs.take m) :=
            sumNet_nonneg _ (fun d hd => hnn d (List.mem_cons_of_mem c (List.take_subset m cs hd)))
          linarith
        · simp

def mkApproved (i : Nat) (net : ℚ) (at_ : Int) : Commission :=
  { id := i, order := 200 + i, marketer := 1, product := 5,
    gross_sale_amount := 0, commission_rate := 0,
    commission_amount := net, platform_fee_rate := 25,
    platform_fee_amount := 0, net_commission := some net,
    status := "approved", payout := none, approved_at := at_, created_at := at_,
    earned_at := some 0, holdback_until := some 0 }

def commA : Commission := mkApproved 21 3000 1
def commB : Commission := mkApproved 22 2000 2
def commC : Commission := mkApproved 23 4000 3

def stC4 : PayoutState :=
  { commissions := [commA, commB, commC], payouts := [], nextPayoutId := 0 }

/-- C4: the payout batcher's selection is the longest prefix of the
    marketer's approved unclaimed commissions (ordered oldest first) whose
    net total stays within the target `payoutTarget requested available`;
    a request whose selected running total is below the ₦5,000 minimum is
    rejected; and on nets [3000, 2000, 4000] with requested amount 6000
    the selected set is the first two commissions, total 5000. -/
theorem payout_selection_greedy :
    (∀ (st : PayoutState) (m : User) (req : Option ℚ),
      (∀ c ∈ approvedUnclaimed st m, 0 ≤ cNet c) →
      0 ≤ payoutTarget req (totalAvailable st m) →
      selectCommissions (approvedUnclaimed st m) 0 (payoutTarget req (totalAvailable st m))
        = (approvedUnclaimed st m).take
            (selectCommissions (approvedUnclaimed st m) 0
              (payoutTarget req (totalAvailable st m))).length
      ∧ ∀ n, n ≤ (approvedUnclaimed st m).length →
          (sumNet ((approvedUnclaimed st m).take n) ≤ payoutTarget req (totalAvailable st m)
            ↔ n ≤ (selectCommissions (approvedUnclaimed st m) 0
                    (payoutTarget req (totalAvailable st m))).length))
    ∧ (∀ (gw : GatewayResult) (now : Int) (st : PayoutState) (m : User) (req : Option ℚ),
        sumNet (selectCommissions (approvedUnclaimed st m) 0
            (payoutTarget req (totalAvailable st m))) < MINIMUM_PAYOUT_NGN →
        ∀ p, (process_payout_request gw now st m req).2 ≠ Except.ok p)
    ∧ ((process_payout_request gwOk 0 stC4 marketerC1 (some 6000)).2.map Payout.total_amount
          = Except.ok 5000
        ∧ (process_payout_request gwOk 0 stC4 marketerC1 (some 6000)).2.map Payout.commission_count
          = Except.ok 2
        ∧ (process_payout_request gwOk 0 stC4 marketerC1 (some 6000)).1.commissions.map
            Commission.payout = [some 0, some 0, none]) := by
  refine ⟨?_, ?_, ?_⟩
  · intro st m req hnn ht
    refine ⟨selectCommissions_isTake _ _ _, ?_⟩
    intro n hn
    have h := selectCommissions_longest (approvedUnclaimed st m) 0
      (payoutTarget req (totalAvailable st m)) hnn ht n hn
    simpa using h
  · intro gw now st m req hlt p
    simp only [totalAvailable] at hlt
    cases gw with
    | err msg =>
      simp only [process_payout_request]
      split_ifs <;> simp
    | ok ref tc =>
      simp only [process_payout_request]
      split_ifs <;> simp
  · refine ⟨?_, ?_, ?_⟩ <;>
      norm_num +decide [process_payout_request, approvedUnclaimed, sortByKey, insertByKey,
        keyLE, commKey, sumNet, cNet, payoutTarget, selectCommissions, MINIMUM_PAYOUT_NGN,
        stC4, marketerC1, commA, commB, commC, mkApproved, gwOk, optFalsy, min_def,
        Except.map]

theorem payout_selection_greedy_witness :
    (sumNet ((approvedUnclaimed stC4 marketerC1).take 2)
        ≤ payoutTarget (some 6000) (totalAvailable stC4 marketerC1)
      ↔ 2 ≤ (selectCommissions (approvedUnclaimed stC4 marketerC1) 0
              (payoutTarget (some 6000) (totalAvailable stC4 marketerC1))).length)
    ∧ ∀ p, (process_payout_request gwOk 0 stSmall marketerC1 none).2 ≠ Except.ok p := by
  have hcands : approvedUnclaimed stC4 marketerC1 = [commA, commB, commC] := by
    norm_num +decide [approvedUnclaimed, sortByKey, insertByKey, keyLE, commKey,
      stC4, marketerC1, commA, commB, commC, mkApproved]
  constructor
  · refine ((payout_selection_greedy.1 stC4 marketerC1 (some 6000) ?_ ?_).2 2 ?_)
    · rw [hcands]
      intro c hc
      fin_cases hc <;> norm_num [cNet, commA, commB, commC, mkApproved]
    · rw [payoutTarget, totalAvailable, hcands]
      norm_num [sumNet, cNet, commA, commB, commC, mkApproved, min_def]
    · rw [hcands]
      norm_num
  · refine payout_selection_greedy.2.1 gwOk 0 stSmall marketerC1 none ?_
    norm_num +decide [approvedUnclaimed, sortByKey, insertByKey, keyLE, commKey,
      stSmall, marketerC1, commissionSmall, sumNet, cNet, payoutTarget, totalAvailable,
      selectCommissions, MINIMUM_PAYOUT_NGN, min_def]

/-! ### Calculator lemmas -/

theorem find?_append_none {α : Type} (p : α → Bool) (l1 l2 : List α)
    (h : l1.find? p = none) : (l1 ++ l2).find? p = l2.find? p := by
  induction l1 with
  | nil => rfl
  | cons a l ih =>
    cases hpa : p a with
    | true => simp [List.find?_cons_of_pos, hpa] at h
    | false =>
      have h' : l.find? p = none := by
        rwa [List.find?_cons_of_neg _ (by simp [hpa])] at h
      rw [List.cons_append, List.find?_cons_of_neg _ (by simp [hpa])]
      exact ih h'

/-- C6: the calculator is idempotent.  A second `calculate_commission` call
    on the same order returns exactly the first call's result and leaves
    the state (commission rows and affiliate-link counters) untouched; and
    whenever a commission row already exists for a delivered order with a
    marketer, that existing row is returned with no state change. -/
theorem calculate_commission_idempotent :
    (∀ (st : CalcState) (now now2 : Int) (o : OrderInfo),
      calculate_commission (calculate_commission st now o).1 now2 o
        = calculate_commission st now o)
    ∧ (∀ (st : CalcState) (now : Int) (o : OrderInfo) (c : Commission),
        o.status = "delivered" → o.marketer.isSome = true →
        st.commissions.find? (fun x => x.order == o.id) = some c →
        calculate_commission st now o = (st, some c)) := by
  constructor
  · intro st now now2 o
    by_cases hg : (o.status != "delivered" || o.marketer.isNone) = true
    · simp [calculate_commission, hg]
    · rw [Bool.not_eq_true, Bool.or_eq_false_iff] at hg
      obtain ⟨hs', hm'⟩ := hg
      have hs : o.status = "delivered" := by simpa using hs'
      cases hmo : o.marketer with
      | none => rw [hmo] at hm'; simp at hm'
      | some mid =>
        cases hfind : st.commissions.find? (fun x => x.order == o.id) with
        | some c => simp [calculate_commission, hs, hmo, hfind]
        | none =>
          simp [calculate_commission, hs, hmo, hfind, find?_append_none]
  · intro st now o c hs hm hfind
    obtain ⟨mid, hmid⟩ := Option.isSome_iff_exists.mp hm
    simp [calculate_commission, hs, hmid, hfind]

/-- C7: every commission the calculator creates satisfies
    `platform_fee_amount = commission_amount * 0.025` exactly (the code's
    `gross * 2.5 / 100`), `net_commission = commission_amount -
    platform_fee_amount`, and `commission_amount` is
    `subtotal * commission_rate / 100` for a percentage-commission product
    and `fixed_commission_amount * quantity` otherwise. -/
theorem calculate_commission_amount_formulas :
    ∀ (st : CalcState) (now : Int) (o : OrderInfo) (mid : Nat),
      o.status = "delivered" → o.marketer = some mid →
      st.commissions.find? (fun x => x.order == o.id) = none →
      ∃ c, (calculate_commission st now o).2 = some c ∧
        c.platform_fee_amount = c.commission_amount * (0.025 : ℚ) ∧
        c.platform_fee_amount = c.commission_amount * platform_fee_rate / 100 ∧
        c.net_commission = some (c.commission_amount - c.platform_fee_amount) ∧
        c.commission_amount =
          (if o.product.commission_type == "percentage"
            then o.subtotal * o.product.commission_rate / 100
            else o.product.fixed_commission_amount * (o.quantity : ℚ)) := by
  intro st now o mid hs hm hfind
  simp only [calculate_commission, hs, hm, hfind, bne_self_eq_false, Option.isNone_some,
    Bool.or_self, Bool.false_eq_true, if_false]
  refine ⟨_, rfl, ?_, ?_, ?_, ?_⟩
  · show _ * platform_fee_rate / 100 = _ * (0.025 : ℚ)
    rw [platform_fee_rate]
    ring_nf
  · rfl
  · rfl
  · rfl

def prodPct : ProductInfo :=
  { id := 5, commission_type := "percentage", commission_rate := 10,
    fixed_commission_amount := 0 }

def ordDelivered : OrderInfo :=
  { id := 300, status := "delivered", marketer := some 1, product := prodPct,
    subtotal := 1000, quantity := 1, delivered_at := some 0 }

def commExisting : Commission :=
  { id := 40, order := 300, marketer := 1, product := 5,
    gross_sale_amount := 1000, commission_rate := 10,
    commission_amount := 100, platform_fee_rate := 25,
    platform_fee_amount := 0, net_commission := some 100,
    status := "earned", payout := none, approved_at := 0, created_at := 0,
    earned_at := some 0, holdback_until := some 0 }

def stCalcExisting : CalcState :=
  { commissions := [commExisting], links := fun _ => none, nextCommissionId := 41 }

theorem calculate_commission_idempotent_witness :
    calculate_commission stCalcExisting 7 ordDelivered = (stCalcExisting, some commExisting) :=
  calculate_commission_idempotent.2 stCalcExisting 7 ordDelivered commExisting rfl rfl rfl

def stCalcEmpty : CalcState :=
  { commissions := [], links := fun _ => none, nextCommissionId := 0 }

theorem calculate_commission_amount_formulas_witness :
    ∃ c, (calculate_commission stCalcEmpty 7 ordDelivered).2 = some c ∧
      c.platform_fee_amount = c.commission_amount * (0.025 : ℚ) ∧
      c.platform_fee_amount = c.commission_amount * platform_fee_rate / 100 ∧
      c.net_commission = some (c.commission_amount - c.platform_fee_amount) ∧
      c.commission_amount =
        (if ordDelivered.product.commission_type == "percentage"
          then ordDelivered.subtotal * ordDelivered.product.commission_rate / 100
          else ordDelivered.product.fixed_commission_amount * (ordDelivered.quantity : ℚ)) :=
  calculate_commission_amount_formulas stCalcEmpty 7 ordDelivered 1 rfl rfl rfl

/-! ### Attribution theorems -/

def emptyAttrState : AttrState := fun _ => none

def convertedRec : AttributionTracking :=
  { cookie_id := "ck3", session_id := none, first_click_link := some 1,
    last_click_link := some 1, attribution_model := "last_click",
    click_chain := [{ link_id := 1, timestamp := 0, weight := 1 }],
    created_at := 0, expires_at := thirtyDays, converted := true,
    converted_at := some 5, order := some 42 }

def attrStConverted : AttrState :=
  Function.update emptyAttrState "ck3" (some convertedRec)

/-- C3 counterexample: `create_or_update_attribution` never checks the
    `converted` flag, so a click arriving after conversion still mutates
    the record — the chain grows from 1 to 2 touches, `last_click_link`
    moves to the new link, and `expires_at` is re-extended — refuting
    "frozen after conversion". -/
theorem converted_attribution_record_still_updated :
    convertedRec.converted = true
    ∧ convertedRec.click_chain.length = 1
    ∧ (create_or_update_attribution attrStConverted 100 "ck3" 7 none).2.click_chain.length = 2
    ∧ (create_or_update_attribution attrStConverted 100 "ck3" 7 none).2.last_click_link = some 7
    ∧ (create_or_update_attribution attrStConverted 100 "ck3" 7 none).2.expires_at
        = 100 + thirtyDays
    ∧ (create_or_update_attribution attrStConverted 100 "ck3" 7 none).1 "ck3"
        = some (create_or_update_attribution attrStConverted 100 "ck3" 7 none).2
    ∧ (create_or_update_attribution attrStConverted 100 "ck3" 7 none).2 ≠ convertedRec := by
  have hlook : attrStConverted "ck3" = some convertedRec := rfl
  refine ⟨rfl, rfl, ?_, ?_, ?_, ?_, ?_⟩ <;>
    simp [create_or_update_attribution, hlook, attrStConverted, convertedRec,
      Function.update, thirtyDays]

/-- C3 (amended): attribution records are not frozen after conversion: a
    `create_or_update_attribution` call for a converted record performs
    exactly the same update as before conversion — it appends the touch to
    `click_chain`, overwrites `last_click_link`, re-extends `expires_at` —
    while `converted`, `converted_at`, `first_click_link`, `created_at`
    and every other cookie's record are untouched. -/
theorem attribution_not_frozen_after_conversion :
    ∀ (st : AttrState) (now : Int) (ck : String) (link : Nat) (sid : Option String)
      (a : AttributionTracking), st ck = some a → a.converted = true →
      (create_or_update_attribution st now ck link sid).2.click_chain
          = a.click_chain ++ [{ link_id := link, timestamp := now, weight := 1 }]
      ∧ (create_or_update_attribution st now ck link sid).2.last_click_link = some link
      ∧ (create_or_update_attribution st now ck link sid).2.expires_at = now + thirtyDays
      ∧ (create_or_update_attribution st now ck link sid).2.converted = true
      ∧ (create_or_update_attribution st now ck link sid).2.converted_at = a.converted_at
      ∧ (create_or_update_attribution st now ck link sid).2.first_click_link = a.first_click_link
      ∧ (create_or_update_attribution st now ck link sid).2.created_at = a.created_at
      ∧ (create_or_update_attribution st now ck link sid).1 ck
          = some (create_or_update_attribution st now ck link sid).2
      ∧ ∀ ck2, ck2 ≠ ck → (create_or_update_attribution st now ck link sid).1 ck2 = st ck2 := by
  intro st now ck link sid a ha hc
  refine ⟨?_, ?_, ?_, ?_, ?_, ?_, ?_, ?_, ?_⟩ <;>
    simp [create_or_update_attribution, ha, hc, Function.update]
  intro ck2 hne
  simp [hne]

theorem attribution_not_frozen_after_conversion_witness :
    (create_or_update_attribution attrStConverted 200 "ck3" 9 none).2.click_chain
        = convertedRec.click_chain ++ [{ link_id := 9, timestamp := 200, weight := 1 }]
    ∧ (create_or_update_attribution attrStConverted 200 "ck3" 9 none).2.last_click_link = some 9
    ∧ (create_or_update_attribution attrStConverted 200 "ck3" 9 none).2.expires_at
        = 200 + thirtyDays
    ∧ (create_or_update_attribution attrStConverted 200 "ck3" 9 none).2.converted = true
    ∧ (create_or_update_attribution attrStConverted 200 "ck3" 9 none).2.converted_at
        = convertedRec.converted_at
    ∧ (create_or_update_attribution attrStConverted 200 "ck3" 9 none).2.first_click_link
        = convertedRec.first_click_link
    ∧ (create_or_update_attribution attrStConverted 200 "ck3" 9 none).2.created_at
        = convertedRec.created_at
    ∧ (create_or_update_attribution attrStConverted 200 "ck3" 9 none).1 "ck3"
        = some (create_or_update_attribution attrStConverted 200 "ck3" 9 none).2
    ∧ ∀ ck2, ck2 ≠ "ck3" →
        (create_or_update_attribution attrStConverted 200 "ck3" 9 none).1 ck2
          = attrStConverted ck2 :=
  attribution_not_frozen_after_conversion attrStConverted 200 "ck3" 9 none convertedRec rfl rfl

/-- The pure record effect of one touch on an existing attribution row. -/
def touchRec (a : AttributionTracking) (e : ClickEv) : AttributionTracking :=
  { a with
    last_click_link := some e.link
    click_chain := a.click_chain ++ [touchOf e]
    expires_at := e.time + thirtyDays }

theorem applyClick_found (st : AttrState) (e : ClickEv) (a : AttributionTracking)
    (ha : st e.cookie = some a) :
    applyClick st e = Function.update st e.cookie (some (touchRec a e)) := by
  simp [applyClick, create_or_update_attribution, ha, touchRec, touchOf]

theorem applyClicks_found (es : List ClickEv) :
    ∀ (st : AttrState) (ck : String) (a : AttributionTracking),
      st ck = some a → (∀ e ∈ es, e.cookie = ck) →
      applyClicks st es ck = some (es.foldl touchRec a) := by
  induction es with
  | nil => intro st ck a ha _; simpa [applyClicks] using ha
  | cons e rest ih =>
    intro st ck a ha hall
    have hck : e.cookie = ck := hall e (List.mem_cons_self e rest)
    have h1 : applyClick st e = Function.update st ck (some (touchRec a e)) := by
      rw [applyClick_found st e a (by rw [hck]; exact ha), hck]
    have h2 : (applyClick st e) ck = some (touchRec a e) := by
      rw [h1]; simp [Function.update]
    have h3 := ih (applyClick st e) ck (touchRec a e) h2
      (fun x hx => hall x (List.mem_cons_of_mem e hx))
    simpa [applyClicks] using h3

theorem foldl_touchRec_fields (es : List ClickEv) :
    ∀ a : AttributionTracking,
      (es.foldl touchRec a).click_chain = a.click_chain ++ es.map touchOf
      ∧ (es.foldl touchRec a).first_click_link = a.first_click_link
      ∧ (es.foldl touchRec a).converted = a.converted
      ∧ (es.foldl touchRec a).created_at = a.created_at := by
  induction es with
  | nil => intro a; simp
  | cons e rest ih =>
    intro a
    have h := ih (touchRec a e)
    simp only [List.foldl_cons, List.map_cons]
    refine ⟨?_, ?_, ?_, ?_⟩
    · rw [h.1]; simp [touchRec]
    · rw [h.2.1]; simp [touchRec]
    · rw [h.2.2.1]; simp [touchRec]
    · rw [h.2.2.2]; simp [touchRec]

theorem foldl_touchRec_last (es : List ClickEv) :
    ∀ (a : AttributionTracking) (l : ClickEv), es.getLast? = some l →
      (es.foldl touchRec a).last_click_link = some l.link
      ∧ (es.foldl touchRec a).expires_at = l.time + thirtyDays := by
  induction es with
  | nil => intro a l h; simp at h
  | cons e rest ih =>
    intro a l h
    cases rest with
    | nil =>
      simp only [List.getLast?_singleton, Option.some.injEq] at h
      subst h
      simp [touchRec]
    | cons x xs =>
      rw [List.getLast?_cons_cons] at h
      simp only [List.foldl_cons]
      exact ih (touchRec a e) l h

/-- C8: for a sequence of clicks sharing one cookie, starting from a state
    with no record for that cookie, the resulting attribution record's
    chain is exactly the touch per click in order (length = number of
    clicks, no dedup, no cap), `first_click_link` is the first click's
    link, `last_click_link` the most recent click's link, and `expires_at`
    is the most recent click's time + 30 days. -/
theorem attribution_chain_tracks_clicks :
    ∀ (st : AttrState) (ck : String) (e : ClickEv) (es : List ClickEv),
      st ck = none → (∀ x ∈ e :: es, x.cookie = ck) →
      ∃ r, applyClicks st (e :: es) ck = some r
        ∧ r.click_chain.length = (e :: es).length
        ∧ r.click_chain = (e :: es).map touchOf
        ∧ r.first_click_link = some e.link
        ∧ ∀ l, (e :: es).getLast? = some l →
            r.last_click_link = some l.link ∧ r.expires_at = l.time + thirtyDays := by
  intro st ck e es hnone hall
  have hck : e.cookie = ck := hall e (List.mem_cons_self e es)
  have h1 : applyClick st e = Function.update st ck
      (some { cookie_id := e.cookie, session_id := e.session,
              first_click_link := some e.link, last_click_link := some e.link,
              attribution_model := "last_click", click_chain := [touchOf e],
              created_at := e.time, expires_at := e.time + thirtyDays,
              converted := false, converted_at := none, order := none }) := by
    simp [applyClick, create_or_update_attribution, hck, hnone, touchOf]
  have h2 : (applyClick st e) ck = some
      { cookie_id := e.cookie, session_id := e.session,
        first_click_link := some e.link, last_click_link := some e.link,
        attribution_model := "last_click", click_chain := [touchOf e],
        created_at := e.time, expires_at := e.time + thirtyDays,
        converted := false, converted_at := none, order := none } := by
    rw [h1]; simp [Function.update]
  have h3 := applyClicks_found es (applyClick st e) ck _ h2
    (fun x hx => hall x (List.mem_cons_of_mem e hx))
  refine ⟨List.foldl touchRec
      { cookie_id := e.cookie, session_id := e.session,
        first_click_link := some e.link, last_click_link := some e.link,
        attribution_model := "last_click", click_chain := [touchOf e],
        created_at := e.time, expires_at := e.time + thirtyDays,
        converted := false, converted_at := none, order := none } es,
      ?_, ?_, ?_, ?_, ?_⟩
  · simpa [applyClicks] using h3
  · rw [(foldl_touchRec_fields es _).1]
    simp
  · rw [(foldl_touchRec_fields es _).1]
    simp
  · rw [(foldl_touchRec_fields es _).2.1]
  · intro l hl
    cases es with
    | nil =>
      simp only [List.getLast?_singleton, Option.some.injEq] at hl
      subst hl
      simp
    | cons x xs =>
      rw [List.getLast?_cons_cons] at hl
      exact foldl_touchRec_last (x :: xs) _ l hl

def ev1 : ClickEv := { time := 10, cookie := "w8", link := 3, session := none }

def ev2 : ClickEv := { time := 20, cookie := "w8", link := 4, session := none }

theorem attribution_chain_tracks_clicks_witness :
    ∃ r, applyClicks emptyAttrState (ev1 :: [ev2]) "w8" = some r
      ∧ r.click_chain.length = (ev1 :: [ev2]).length
      ∧ r.click_chain = (ev1 :: [ev2]).map touchOf
      ∧ r.first_click_link = some ev1.link
      ∧ ∀ l, (ev1 :: [ev2]).getLast? = some l →
          r.last_click_link = some l.link ∧ r.expires_at = l.time + thirtyDays :=
  attribution_chain_tracks_clicks emptyAttrState "w8" ev1 [ev2] rfl
    (by intro x hx; fin_cases hx <;> rfl)

/-! ### Fraud engine theorems -/

def emptyFraudDB : FraudDB :=
  { clicks := [], orders := [], attributions := [], users := [], links := [], logs := [] }

/-- C2 counterexample: invoking the fraud scorer on a missing entity (here
    a click id with no ClickTracking row) takes the early zero-score
    return and writes no FraudDetectionLog row at all — refuting "every
    invocation writes exactly one audit row". -/
theorem fraud_missing_entity_writes_no_audit_row :
    (detect_fraud emptyFraudDB 0 "click" 5).1
        = { fraud_score := 0, signals := [], action := "none" }
    ∧ (detect_fraud emptyFraudDB 0 "click" 5).2.logs.length = 0 := by
  constructor <;> rfl

/-- C2 (amended): every scoring invocation that finds its entity (or has
    an unknown entity type, which falls through with no signals) appends
    exactly one FraudDetectionLog row recording the entity type and id,
    the joined signal list, the clamped numeric score and the action
    taken; an invocation on a missing entity instead returns the
    zero-score/no-signal result without raising and without writing an
    audit row, leaving the database untouched. -/
theorem fraud_audit_row_per_scoring :
    ∀ (db : FraudDB) (now : Int) (etype : String) (eid : Nat),
      (∀ hs, triggered db now etype eid = some hs →
        (detect_fraud db now etype eid).2.logs = db.logs ++
          [{ entity_type := etype
             entity_id := eid
             fraud_type := if (hs.map Prod.fst).isEmpty then "none"
                           else String.intercalate ", " (hs.map Prod.fst)
             fraud_score := min ((hs.map Prod.snd).sum) 1
             indicator_signals := hs.map Prod.fst
             action_taken := actionFor (min ((hs.map Prod.snd).sum) 1) }])
      ∧ (triggered db now etype eid = none →
          detect_fraud db now etype eid
            = ({ fraud_score := 0, signals := [], action := "none" }, db)) := by
  intro db now etype eid
  constructor
  · intro hs htrig
    simp only [detect_fraud, htrig]
    split_ifs <;> simp
  · intro htrig
    simp [detect_fraud, htrig]

def userDup1 : UserRow :=
  { id := 1, role := "marketer", account_number := some "9955", created_at := 0, is_active := true }

def userDup2 : UserRow :=
  { id := 2, role := "marketer", account_number := some "9955", created_at := 0, is_active := true }

def dbDup : FraudDB :=
  { clicks := [], orders := [], attributions := [], users := [userDup1, userDup2],
    links := [], logs := [] }

def hsDup : List (String × ℚ) := [("Bank account used by multiple marketers", (0.7 : ℚ))]

theorem fraud_audit_row_per_scoring_witness :
    (detect_fraud dbDup 0 "marketer" 1).2.logs = dbDup.logs ++
        [{ entity_type := "marketer"
           entity_id := 1
           fraud_type := if (hsDup.map Prod.fst).isEmpty then "none"
                         else String.intercalate ", " (hsDup.map Prod.fst)
           fraud_score := min ((hsDup.map Prod.snd).sum) 1
           indicator_signals := hsDup.map Prod.fst
           action_taken := actionFor (min ((hsDup.map Prod.snd).sum) 1) }]
    ∧ detect_fraud emptyFraudDB 0 "order" 9
        = ({ fraud_score := 0, signals := [], action := "none" }, emptyFraudDB) :=
  ⟨(fraud_audit_row_per_scoring dbDup 0 "marketer" 1).1 hsDup rfl,
   (fraud_audit_row_per_scoring emptyFraudDB 0 "order" 9).2 rfl⟩

/-! ### Score bounds -/

theorem sumPoints_ite_nonneg (c : Prop) [Decidable c] (s : String) (q : ℚ) (hq : 0 ≤ q) :
    0 ≤ ((if c then [(s, q)] else []).map Prod.snd).sum := by
  split <;> simp [hq]

theorem clickHeuristics_sum_nonneg (db : FraudDB) (now : Int) (ck : ClickRow) :
    0 ≤ ((clickHeuristics db now ck).map Prod.snd).sum := by
  unfold clickHeuristics
  simp only [List.map_append, List.sum_append]
  refine add_nonneg (add_nonneg ?_ ?_) ?_ <;> apply sumPoints_ite_nonneg <;> norm_num

theorem orderHeuristics_sum_nonneg (db : FraudDB) (now : Int) (o : OrderRow) :
    0 ≤ ((orderHeuristics db now o).map Prod.snd).sum := by
  unfold orderHeuristics
  split
  · norm_num
  · simp only [List.map_append, List.sum_append]
    refine add_nonneg (add_nonneg ?_ ?_) ?_
    · apply sumPoints_ite_nonneg; norm_num
    · split
      · simp
      · apply sumPoints_ite_nonneg; norm_num
    · split
      · simp
      · split
        · simp
        · apply sumPoints_ite_nonneg; norm_num

theorem marketerHeuristics_sum_nonneg (db : FraudDB) (now : Int) (m : UserRow) :
    0 ≤ ((marketerHeuristics db now m).map Prod.snd).sum := by
  unfold marketerHeuristics
  simp only [List.map_append, List.sum_append]
  refine add_nonneg ?_ ?_ <;> apply sumPoints_ite_nonneg <;> norm_num

theorem triggered_sum_nonneg (db : FraudDB) (now : Int) (etype : String) (eid : Nat)
    (hs : List (String × ℚ)) (h : triggered db now etype eid = some hs) :
    0 ≤ (hs.map Prod.snd).sum := by
  unfold triggered at h
  split_ifs at h
  · obtain ⟨ck, _, hb⟩ := Option.map_eq_some'.mp h
    rw [← hb]
    exact clickHeuristics_sum_nonneg db now ck
  · obtain ⟨o, _, hb⟩ := Option.map_eq_some'.mp h
    rw [← hb]
    exact orderHeuristics_sum_nonneg db now o
  · obtain ⟨u, _, hb⟩ := Option.map_eq_some'.mp h
    rw [← hb]
    exact marketerHeuristics_sum_nonneg db now u
  · simp only [Option.some.injEq] at h
    rw [← h]
    simp

/-- C5: the returned fraud score is the sum of the triggered heuristics'
    point contributions clamped to [0,1], and the returned action is the
    pure threshold function of that clamped score (< 0.3 none,
    [0.3, 0.7) flagged, ≥ 0.7 blocked, as `actionFor`). -/
theorem fraud_score_clamped_and_thresholds :
    ∀ (db : FraudDB) (now : Int) (etype : String) (eid : Nat),
      0 ≤ (detect_fraud db now etype eid).1.fraud_score
      ∧ (detect_fraud db now etype eid).1.fraud_score ≤ 1
      ∧ (∀ hs, triggered db now etype eid = some hs →
          (detect_fraud db now etype eid).1.fraud_score = min ((hs.map Prod.snd).sum) 1)
      ∧ (detect_fraud db now etype eid).1.action
          = actionFor (detect_fraud db now etype eid).1.fraud_score := by
  intro db now etype eid
  cases htrig : triggered db now etype eid with
  | none =>
    refine ⟨?_, ?_, fun hs h => Option.noConfusion h, ?_⟩ <;>
      norm_num [detect_fraud, htrig, actionFor]
  | some hs' =>
    have h0 : 0 ≤ (hs'.map Prod.snd).sum := triggered_sum_nonneg db now etype eid hs' htrig
    refine ⟨?_, ?_, ?_, ?_⟩
    · simp only [detect_fraud, htrig]
      exact le_min h0 zero_le_one
    · simp only [detect_fraud, htrig]
      exact min_le_right _ _
    · intro hs2 htrig2
      obtain rfl : hs' = hs2 := Option.some.inj htrig2
      simp only [detect_fraud, htrig]
    · simp only [detect_fraud, htrig]

theorem fraud_score_clamped_and_thresholds_witness :
    0 ≤ (detect_fraud dbDup 0 "marketer" 1).1.fraud_score
    ∧ (detect_fraud dbDup 0 "marketer" 1).1.fraud_score ≤ 1
    ∧ (detect_fraud dbDup 0 "marketer" 1).1.fraud_score = min ((hsDup.map Prod.snd).sum) 1
    ∧ (detect_fraud dbDup 0 "marketer" 1).1.action
        = actionFor (detect_fraud dbDup 0 "marketer" 1).1.fraud_score :=
  ⟨(fraud_score_clamped_and_thresholds dbDup 0 "marketer" 1).1,
   (fraud_score_clamped_and_thresholds dbDup 0 "marketer" 1).2.1,
   (fraud_score_clamped_and_thresholds dbDup 0 "marketer" 1).2.2.1 hsDup rfl,
   (fraud_score_clamped_and_thresholds dbDup 0 "marketer" 1).2.2.2⟩

/-! ### Conversion-rate guard -/

theorem triggered_marketer (db : FraudDB) (now : Int) (eid : Nat) :
    triggered db now "marketer" eid
      = (db.users.find? (fun u => u.id == eid && u.role == "marketer")).map
          (marketerHeuristics db now) := rfl

theorem detect_fraud_marketer_signals (db : FraudDB) (now : Int) (eid : Nat) (u : UserRow)
    (hfind : db.users.find? (fun x => x.id == eid && x.role == "marketer") = some u) :
    (detect_fraud db now "marketer" eid).1.signals
      = (marketerHeuristics db now u).map Prod.fst := by
  have ht : triggered db now "marketer" eid = some (marketerHeuristics db now u) := by
    rw [triggered_marketer, hfind]
    rfl
  simp only [detect_fraud, ht]

theorem abnormal_signal_iff (db : FraudDB) (now : Int) (m : UserRow) :
    ("Abnormally high conversion rate" ∈ (marketerHeuristics db now m).map Prod.fst)
      ↔ (0 < totalClicks db m
          ∧ (totalConversions db m : ℚ) / (totalClicks db m : ℚ) > 0.20) := by
  unfold marketerHeuristics
  simp only [List.map_append, List.mem_append]
  constructor
  · rintro (h | h)
    · split at h <;> simp +decide at h
    · split at h
      · rename_i hcond
        simpa using hcond
      · simp at h
  · rintro ⟨h1, h2⟩
    right
    simp [h1, h2]

/-- C10: the conversion-rate heuristic is evaluated only under the
    `total_clicks > 0` guard, so marketer scoring never forms the
    conversions/clicks ratio at zero clicks: a marketer with zero recorded
    link clicks never receives the "Abnormally high conversion rate"
    signal, and whenever the signal is emitted the marketer's total clicks
    are strictly positive with ratio above 20%. -/
theorem conversion_rate_heuristic_guarded :
    (∀ (db : FraudDB) (now : Int) (eid : Nat) (u : UserRow),
      db.users.find? (fun x => x.id == eid && x.role == "marketer") = some u →
      totalClicks db u = 0 →
      "Abnormally high conversion rate" ∉ (detect_fraud db now "marketer" eid).1.signals)
    ∧ (∀ (db : FraudDB) (now : Int) (eid : Nat),
        "Abnormally high conversion rate" ∈ (detect_fraud db now "marketer" eid).1.signals →
        ∃ u, db.users.find? (fun x => x.id == eid && x.role == "marketer") = some u
          ∧ 0 < totalClicks db u
          ∧ (totalConversions db u : ℚ) / (totalClicks db u : ℚ) > 0.20) := by
  constructor
  · intro db now eid u hfind h0 hmem
    rw [detect_fraud_marketer_signals db now eid u hfind] at hmem
    have h := (abnormal_signal_iff db now u).mp hmem
    rw [h0] at h
    exact absurd h.1 (lt_irrefl 0)
  · intro db now eid hmem
    cases hfind : db.users.find? (fun x => x.id == eid && x.role == "marketer") with
    | none =>
      have ht : triggered db now "marketer" eid = none := by
        rw [triggered_marketer, hfind]
        rfl
      simp [detect_fraud, ht] at hmem
    | some u =>
      rw [detect_fraud_marketer_signals db now eid u hfind] at hmem
      obtain ⟨h1, h2⟩ := (abnormal_signal_iff db now u).mp hmem
      exact ⟨u, rfl, h1, h2⟩

theorem conversion_rate_heuristic_guarded_witness :
    "Abnormally high conversion rate" ∉ (detect_fraud dbDup 0 "marketer" 1).1.signals :=
  conversion_rate_heuristic_guarded.1 dbDup 0 1 userDup1 rfl rfl
